import Mathlib

/-!
# Basecode bootstrap compiler — verification of the bytecode-emission core

A shallow embedding of the semantic-analysis and bytecode-emission pipeline of
the Basecode bootstrap compiler, together with theorems settling the frozen
claims about it.  Definitions are translated from the C++ sources
(`src/basecode/compiler/byte_code_emitter.cpp`, the element sources and the
variable planner); where a definition models a part of the repository whose
source is not available (element map internals, `common::align`), its doc
comment says so explicitly.
-/

namespace Basecode

/-! ## Data model -/

/-- Translation of `number_class_t` from `compiler_types.h`: the number class of a type. -/
inductive NumberClass
  | noClass
  | integer
  | floatingPoint
deriving DecidableEq, Repr

/-- The subset of `operator_type_t` the claims mention. -/
inductive OperatorType
  | add
  | subtract
  | assignment
  | equals
  | lessThan
  | lessThanOrEqual
  | greaterThan
  | greaterThanOrEqual
deriving DecidableEq, Repr

/-- Translation of `cast_mode_t` from `byte_code_emitter.cpp` lines 27-36. -/
inductive CastMode
  | noop
  | integerTruncate
  | integerSignExtend
  | integerZeroExtend
  | floatExtend
  | floatTruncate
  | floatToInteger
  | integerToFloat
deriving DecidableEq, Repr

/-- VM instruction operands, a simplified view of `vm::instruction_operand_t`:
stack pointer, frame pointer, named local temporaries, immediates, label
references and member-access byte offsets. -/
inductive Operand
  | sp
  | fp
  | temp (name : String) (sizeBytes : Nat)
  | imm (value : Nat) (sizeBytes : Nat)
  | labelRef (name : String)
  | offs (value : Int)
  | emptyOperand
deriving DecidableEq, Repr

/-- The VM instructions relevant to the lowering claims (spec §6.2).  Branch
targets are label names. -/
inductive Instr
  | move (dst src : Operand)
  | moveWithOffset (dst src off : Operand)
  | moves (dst src : Operand)
  | movez (dst src : Operand)
  | convert (dst src : Operand)
  | bz (value : Operand) (target : String)
  | bnz (value : Operand) (target : String)
  | jumpDirect (target : String)
  | nop
  | rts
  | push (value : Operand)
  | pop (dst : Operand)
  | subi (dst a b : Operand)
  | addi (dst a b : Operand)
  | copy (dst src len : Operand)
  | store (dst src off : Operand)
  | load (dst src : Operand)
  | call (target : String)
  | callForeign (address : Nat) (signature : Option Nat)
  | cmp (a b : Operand)
  | pushLocals
  | popLocals
deriving DecidableEq, Repr

/-- A labelled basic block: a label plus a straight-line instruction
sequence (`vm::basic_block`; comments and CFG edges elided). -/
structure Block where
  label : String
  instrs : List Instr
deriving DecidableEq, Repr

/-! ## Cast lowering (`byte_code_emitter::emit_element`, `cast` case,
`byte_code_emitter.cpp` lines 205-318) -/

/-- Conversion-mode selection for a numeric cast, translated from
`byte_code_emitter.cpp` lines 214-270.  A source or target type whose number
class is `none` is rejected with error code `C073` and emission fails. -/
def selectCastMode (srcClass : NumberClass) (srcSize : Nat) (srcSigned : Bool)
    (tgtClass : NumberClass) (tgtSize : Nat) : Except String CastMode :=
  if srcClass = NumberClass.noClass then
    Except.error "C073"
  else if tgtClass = NumberClass.noClass then
    Except.error "C073"
  else if srcClass = NumberClass.integer ∧ tgtClass = NumberClass.integer then
    if srcSize = tgtSize then
      Except.ok CastMode.integerTruncate
    else if srcSize > tgtSize then
      Except.ok CastMode.integerTruncate
    else if srcSigned then
      Except.ok CastMode.integerSignExtend
    else
      Except.ok CastMode.integerZeroExtend
  else if srcClass = NumberClass.floatingPoint ∧ tgtClass = NumberClass.floatingPoint then
    if srcSize = tgtSize then
      Except.ok CastMode.floatTruncate
    else if srcSize > tgtSize then
      Except.ok CastMode.floatTruncate
    else
      Except.ok CastMode.floatExtend
  else if srcClass = NumberClass.integer then
    Except.ok CastMode.integerToFloat
  else
    Except.ok CastMode.floatToInteger

/-- Instruction selection for a cast mode, translated from the `switch (mode)`
at `byte_code_emitter.cpp` lines 285-316: truncation moves, sign extension
uses `moves`, zero extension uses `movez`, every float/integer conversion
uses `convert`. -/
def castInstrs (mode : CastMode) (target source : Operand) : List Instr :=
  match mode with
  | CastMode.noop => []
  | CastMode.integerTruncate => [Instr.move target source]
  | CastMode.integerSignExtend => [Instr.moves target source]
  | CastMode.integerZeroExtend => [Instr.movez target source]
  | CastMode.floatExtend => [Instr.convert target source]
  | CastMode.floatTruncate => [Instr.convert target source]
  | CastMode.integerToFloat => [Instr.convert target source]
  | CastMode.floatToInteger => [Instr.convert target source]

/-- The full cast emission: select the mode, then emit the instructions for
it.  Failure propagates the `C073` diagnostic. -/
def emitCast (srcClass : NumberClass) (srcSize : Nat) (srcSigned : Bool)
    (tgtClass : NumberClass) (tgtSize : Nat) (target source : Operand) :
    Except String (List Instr) :=
  (selectCastMode srcClass srcSize srcSigned tgtClass tgtSize).map
    (fun mode => castInstrs mode target source)

/-! ## For/range operator synthesis (`byte_code_emitter.cpp` lines 452-499) -/

/-- Comparison-operator selection for a `for x in range(...)` loop, translated
from the nested `switch (kind_value) / switch (dir_value)` at
`byte_code_emitter.cpp` lines 465-499.  `cmp_op_type` starts as `less_than`
and the error arms leave it unchanged. -/
def rangeComparisonOp (dirValue kindValue : Nat) : OperatorType :=
  match kindValue with
  | 0 =>
    match dirValue with
    | 0 => OperatorType.lessThanOrEqual
    | 1 => OperatorType.greaterThanOrEqual
    | _ => OperatorType.lessThan
  | 1 =>
    match dirValue with
    | 0 => OperatorType.lessThan
    | 1 => OperatorType.greaterThan
    | _ => OperatorType.lessThan
  | _ => OperatorType.lessThan

/-- Induction-step operator selection, translated from
`byte_code_emitter.cpp` lines 462-464. -/
def rangeStepOp (dirValue : Nat) : OperatorType :=
  if dirValue = 0 then OperatorType.add else OperatorType.subtract

/-! ## If lowering (`byte_code_emitter::emit_element`, `if_e` case,
`byte_code_emitter.cpp` lines 320-395) -/

/-- The check `is_current_instruction(jmp) || is_current_instruction(rts)`
applied to an instruction sequence: does the last instruction assemble to an
unconditional `jmp` (emitted by `jump_direct`) or to `rts`? -/
def lastIsJmpOrRts (instrs : List Instr) : Bool :=
  match instrs.getLast? with
  | some (Instr.jumpDirect _) => true
  | some Instr.rts => true
  | _ => false

/-- Lowering of an `if` element, translated from `byte_code_emitter.cpp`
lines 320-395.  The sub-emissions for the predicate and the two branches are
passed as the instruction sequences they append (the simple case in which
they do not open new blocks); `falseInstrs = none` models a missing `else`
branch, for which the false block receives a single `nop`. -/
def emitIf (labelName : String) (predInstrs : List Instr) (predOperand : Operand)
    (trueInstrs : List Instr) (falseInstrs : Option (List Instr)) : List Block :=
  let predicateBlock : Block :=
    ⟨labelName ++ "_entry",
     predInstrs ++ [Instr.bz predOperand (labelName ++ "_false")]⟩
  let trueBlock : Block :=
    ⟨labelName ++ "_true",
     trueInstrs ++
       (if lastIsJmpOrRts trueInstrs then []
        else [Instr.jumpDirect (labelName ++ "_exit")])⟩
  let falseBlock : Block :=
    ⟨labelName ++ "_false",
     match falseInstrs with
     | some is => is
     | none => [Instr.nop]⟩
  let exitBlock : Block := ⟨labelName ++ "_exit", []⟩
  [predicateBlock, trueBlock, falseBlock, exitBlock]

/-! ## Element map effect of for/range lowering
(`byte_code_emitter.cpp` lines 407-580) -/

/-- Modelled from the spec: the element map (§4.1) is an arena of semantic
nodes addressed by stable identifiers; its own source is not under `src/`.
Only the set of stored identifiers matters for the claims, so the map is
modelled as the list of live identifiers, and the builder's
`make_binary_operator` as the insertion of a freshly stamped identifier. -/
def elementMapAdd (m : List Nat) (id : Nat) : List Nat :=
  id :: m

/-- Modelled from the spec: `element_map::remove(id)` detaches the element
with that identifier (§4.1); for an element marked *non-owning* its children
are left alone (§9, synthetic helper elements). -/
def elementMapRemove (m : List Nat) (id : Nat) : List Nat :=
  m.filter (fun x => x ≠ id)

/-- The element-map trace of emitting one for-over-range loop, following the
`for_e` case of `byte_code_emitter.cpp`: the builder creates the synthetic
induction-initialisation operator (line 435), the comparison operator
(line 509), the induction-step operator (line 542) and the step-assignment
operator (line 547), each immediately marked non-owning with a deferred
`_session.elements().remove(...)`; the deferred removals run at scope exit in
reverse order of registration. -/
def emitForRangeElementMapTrace (m : List Nat)
    (initId cmpId stepId assignId : Nat) : List Nat :=
  let m1 := elementMapAdd m initId
  let m2 := elementMapAdd m1 cmpId
  let m3 := elementMapAdd m2 stepId
  let m4 := elementMapAdd m3 assignId
  let m5 := elementMapRemove m4 assignId
  let m6 := elementMapRemove m5 stepId
  let m7 := elementMapRemove m6 cmpId
  elementMapRemove m7 initId

/-! ## Flow-control stack (`byte_code_emitter.cpp` lines 47-60, 425-430,
774-778, 860-867) -/

/-- A flow-control record (`flow_control_t`): exit and continue labels (the
scrutinee/fallthrough payload is elided). -/
structure FlowControl where
  exitLabel : Option String
  continueLabel : Option String
deriving DecidableEq, Repr

/-- Translation of `byte_code_emitter::push_flow_control` (lines 58-60): pushes the record
onto the emitter's flow-control stack. -/
def pushFlowControl (stack : List FlowControl) (fc : FlowControl) : List FlowControl :=
  fc :: stack

/-- Translation of `byte_code_emitter::pop_flow_control` (lines 47-50), exact:
the body returns early when the stack is empty and otherwise contains no
statement at all — in particular no call to `_control_flow_stack.pop()` — so
the stack is returned unchanged on both paths. -/
def popFlowControl (stack : List FlowControl) : List FlowControl :=
  if stack.isEmpty then
    stack
  else
    stack

/-- The flow-control-stack effect of emitting one `while` (or for-over-range,
or `switch`) construct: `push_flow_control` on entry (line 774) and the
deferred `pop_flow_control()` on scope exit (line 778). -/
def emitWhileFlowControlTrace (stack : List FlowControl) (fc : FlowControl) :
    List FlowControl :=
  popFlowControl (pushFlowControl stack fc)

/-! ## Variable read/write flags (`variable.cpp`, `src/unnamed/part_000`) -/

/-- The flags of a `compiler::variable` relevant to the claims
(`f_copied`/`f_activated` elided). -/
structure VariableFlags where
  fRead : Bool
  fWritten : Bool
  fAddressed : Bool
deriving DecidableEq, Repr

/-- Translation of `variable::address()` (`part_000` lines 199-230): early-returns when
`f_addressed` is already set or when there is no current assembler block;
otherwise emits the address load and sets `f_addressed`. -/
def variableAddress (s : VariableFlags) (blockPresent : Bool) : VariableFlags :=
  if s.fAddressed then s
  else if blockPresent = false then s
  else { s with fAddressed := true }

/-- Translation of `variable::read()` (`part_000` lines 57-104): returns `false` and emits
nothing when `f_read` is already set; returns `true` without touching the
flags when there is no current block; otherwise calls `address()`, emits the
value load, sets `f_read` and clears `f_written`. -/
def variableRead (s : VariableFlags) (blockPresent : Bool) :
    Bool × VariableFlags × List Instr :=
  if s.fRead then
    (false, s, [])
  else if blockPresent = false then
    (true, s, [])
  else
    let s1 := variableAddress s blockPresent
    (true, { s1 with fRead := true, fWritten := false },
     [Instr.load (Operand.temp "value" 8) (Operand.temp "address" 8)])

/-- Translation of `variable::write()` (`part_000` lines 162-197): returns `false` and emits
nothing when `f_written` is already set; otherwise calls `address()`, emits
the store, sets `f_written` and clears `f_read`. -/
def variableWrite (s : VariableFlags) (blockPresent : Bool) :
    Bool × VariableFlags × List Instr :=
  if s.fWritten then
    (false, s, [])
  else
    let s1 := variableAddress s blockPresent
    (true, { s1 with fWritten := true, fRead := false },
     [Instr.store (Operand.temp "address" 8) (Operand.temp "value" 8)
        (Operand.offs 0)])

/-- One step of the variable's read/write protocol. -/
inductive VariableOp
  | readOp (blockPresent : Bool)
  | writeOp (blockPresent : Bool)
deriving DecidableEq, Repr

/-- The flag state after one operation. -/
def variableStep (s : VariableFlags) : VariableOp → VariableFlags
  | VariableOp.readOp b => (variableRead s b).2.1
  | VariableOp.writeOp b => (variableWrite s b).2.1

/-- The flag state after a sequence of read/write operations. -/
def variableRun (s : VariableFlags) (ops : List VariableOp) : VariableFlags :=
  ops.foldl variableStep s

/-! ## Transmute lowering (`byte_code_emitter.cpp` lines 1203-1251) -/

/-- Lowering of a `transmute` expression, translated from
`byte_code_emitter.cpp` lines 1203-1251: a source or target type without a
number class is rejected with `C073`; otherwise a plain `move` into a
temporary sized from the target type is emitted.  The source passes
`srcSize`/`tgtSize` through `size_in_bytes()` but performs no comparison
between them. -/
def emitTransmute (srcClass : NumberClass) (srcSize : Nat)
    (tgtClass : NumberClass) (tgtSize : Nat) (source : Operand) :
    Except String (List Instr) :=
  if srcClass = NumberClass.noClass then
    Except.error "C073"
  else if tgtClass = NumberClass.noClass then
    Except.error "C073"
  else
    Except.ok [Instr.move (Operand.temp "" tgtSize) source]

/-! ## Types (`type.cpp`, `pointer_type.cpp`/`src/unnamed/part_001`) -/

/-- The type shapes the claims need: void, numerics, bool, pointers and
composites. -/
inductive CType
  | voidType
  | numeric (cls : NumberClass) (size : Nat) (signed : Bool)
  | boolType
  | pointer (base : CType)
  | composite (name : String) (size : Nat)
deriving DecidableEq, Repr

/-- The virtual `is_pointer_type`: false by default (`type.cpp` line 95), overridden to
true by `pointer_type` (`part_001` line 70). -/
def CType.isPointerType : CType → Bool
  | CType.pointer _ => true
  | _ => false

/-- The virtual `is_composite_type`: false by default (`type.cpp` line 111), true for
`composite_type`, and for a pointer delegated to the base type
(`part_001` line 78: `_base_type_ref->type()->is_composite_type()`). -/
def CType.isCompositeType : CType → Bool
  | CType.composite _ _ => true
  | CType.pointer base => base.isCompositeType
  | _ => false

/-- Size in bytes per the element sources (`pointer_type::on_initialize`
sets `sizeof(uint64_t)`). -/
def CType.sizeInBytes : CType → Nat
  | CType.voidType => 0
  | CType.numeric _ size _ => size
  | CType.boolType => 1
  | CType.pointer _ => 8
  | CType.composite _ size => size

/-! ## Assignment lowering (`byte_code_emitter.cpp` lines 1572-1647) -/

/-- Lowering of an assignment binary operator, translated from
`byte_code_emitter.cpp` lines 1572-1647.  `lhsOffset` is `some` when the lhs
emission produced an `(address, offset)` pair (`operands.size() == 2`).  When
the lhs is not a pointer type, a composite/scalar mismatch is rejected with
error code `X000`; two composites require a byte-wise `copy` of the rhs
type's size; otherwise a `store` is emitted. -/
def emitAssignment (lhsType rhsType : CType) (lhsAddress : Operand)
    (lhsOffset : Option Operand) (rhsOperand : Operand) :
    Except String (List Instr) :=
  let lhsIsComposite := lhsType.isCompositeType
  let rhsIsComposite := rhsType.isCompositeType
  if !lhsType.isPointerType && (lhsIsComposite && !rhsIsComposite) then
    Except.error "X000"
  else if !lhsType.isPointerType && (!lhsIsComposite && rhsIsComposite) then
    Except.error "X000"
  else
    let copyRequired := !lhsType.isPointerType && (lhsIsComposite && rhsIsComposite)
    if copyRequired then
      let size := rhsType.sizeInBytes
      match lhsOffset with
      | some off =>
        Except.ok
          [Instr.moveWithOffset (Operand.temp "" 8) lhsAddress off,
           Instr.copy (Operand.temp "" 8) rhsOperand (Operand.imm size 8)]
      | none =>
        Except.ok [Instr.copy lhsAddress rhsOperand (Operand.imm size 8)]
    else
      match lhsOffset with
      | some off => Except.ok [Instr.store lhsAddress rhsOperand off]
      | none => Except.ok [Instr.store lhsAddress rhsOperand Operand.emptyOperand]

/-! ## Pointer type checking (`src/unnamed/part_001` lines 45-68) -/

/-- Translation of `pointer_type::on_type_check` from `part_001` lines 45-68.
The recursive call `_base_type_ref->type()->type_check(other_base)` is
abstracted as the `baseCheck` parameter; `pointerBase` is this pointer's base
type.  Another pointer whose base is void is always accepted; any numeric
type is accepted exactly when its size is 8 bytes; everything else is
rejected. -/
def pointerOnTypeCheck (baseCheck : CType → CType → Bool)
    (pointerBase : CType) (other : CType) : Bool :=
  match other with
  | CType.pointer otherBase =>
    if otherBase = CType.voidType then true
    else baseCheck pointerBase otherBase
  | CType.numeric _ size _ => size == 8
  | _ => false

/-! ## Procedure-call lowering (`byte_code_emitter.cpp` lines 1053-1201 and
`emit_arguments`, lines 2601-2685) -/

/-- One call-site argument as the emitter sees it: whether its inferred type
is an array/tuple/composite type (the grouped cases of the `switch` at
`emit_arguments` line 2643), its size in bytes, and the operand its emission
produced. -/
structure ArgSpec where
  isCompositeKind : Bool
  size : Nat
  operand : Operand
deriving DecidableEq, Repr

/-- Modelled from the spec: `common::align` (`common/bytes.h`, not under
`src/`) rounds a byte size up to the next multiple of the alignment —
"composite arguments round up to 8 bytes" (§4.5.2). -/
def alignUp (value align : Nat) : Nat :=
  ((value + align - 1) / align) * align

/-- Emission of a single argument, from the body of the reverse loop in
`emit_arguments` (lines 2641-2681): for a non-foreign call a composite-kind
argument allocates `align(size, 8)` bytes below the stack pointer and
byte-copies into them, a scalar is pushed; both add `align(size, 8)` to the
argument list's `allocated_size`.  For a foreign call the argument is pushed
and `allocated_size` is left alone (`type` stays null). -/
def emitOneArg (foreignCall : Bool) (arg : ArgSpec) : List Instr × Nat :=
  if !foreignCall then
    if arg.isCompositeKind then
      ([Instr.subi Operand.sp Operand.sp (Operand.imm (alignUp arg.size 8) 2),
        Instr.copy Operand.sp arg.operand (Operand.imm (alignUp arg.size 8) 2)],
       alignUp arg.size 8)
    else
      ([Instr.push arg.operand], alignUp arg.size 8)
  else
    ([Instr.push arg.operand], 0)

/-- Helper: emit an already-reversed argument list front to back. -/
def emitArgumentsReversed (foreignCall : Bool) : List ArgSpec → List Instr × Nat
  | [] => ([], 0)
  | arg :: rest =>
    let r := emitOneArg foreignCall arg
    let rr := emitArgumentsReversed foreignCall rest
    (r.1 ++ rr.1, r.2 + rr.2)

/-- Translation of `byte_code_emitter::emit_arguments` (lines 2601-2685): iterate the
argument list from `rbegin()` to `rend()` — right-to-left — emitting each
argument and accumulating `allocated_size`. -/
def emitArguments (foreignCall : Bool) (args : List ArgSpec) : List Instr × Nat :=
  emitArgumentsReversed foreignCall args.reverse

/-- Lowering of a procedure call, translated from the `proc_call` case
(`byte_code_emitter.cpp` lines 1053-1201): prologue block (push live locals
for non-foreign calls, argument emission, and — when the callee returns and
the call is not foreign — `sub sp, sp, 8` for the return slot), invoke block
(`call` or `call_foreign`), and epilogue block (stack-pointer restore of
`allocated_size` when positive, then popping live locals for non-foreign
calls).  The return-value `pop` at lines 1178-1185 is dead code because
`return_temp_name` is never assigned (the assignment at lines 1068-1070 is
commented out `XXX: fix`), so it does not appear here. -/
def emitProcCall (callLabel procLabel : String) (isForeign : Bool)
    (hasReturnType : Bool) (args : List ArgSpec)
    (foreignAddress : Nat) (variadicSignature : Option Nat) : List Block :=
  let argsResult := emitArguments isForeign args
  let prologueInstrs :=
    (if !isForeign then [Instr.pushLocals] else []) ++
    argsResult.1 ++
    (if !isForeign && hasReturnType then
      [Instr.subi Operand.sp Operand.sp (Operand.imm 8 1)]
     else [])
  let invokeInstrs :=
    if isForeign then [Instr.callForeign foreignAddress variadicSignature]
    else [Instr.call procLabel]
  let epilogueInstrs :=
    (if argsResult.2 > 0 then
      [Instr.addi Operand.sp Operand.sp (Operand.imm argsResult.2 2)]
     else []) ++
    (if !isForeign then [Instr.popLocals] else [])
  [⟨callLabel ++ "_prologue", prologueInstrs⟩,
   ⟨callLabel ++ "_invoke", invokeInstrs⟩,
   ⟨callLabel ++ "_epilogue", epilogueInstrs⟩]

end Basecode

namespace Basecode

/-! ## Theorems -/

/-- **C1.** For every cast expression whose source and target types both have
a number class other than `none`, the emitter selects the conversion mode per
the design table: integer→integer with source size ≥ target truncates and
emits `move`; a smaller signed integer source sign-extends (`moves`); a
smaller unsigned integer source zero-extends (`movez`); float→float with
source size ≥ target truncates and otherwise extends (both via `convert`);
any integer/float cross cast converts.  If either side's number class is
`none`, the cast is rejected with error code `C073` and emission fails. -/
theorem cast_mode_selection (srcSize tgtSize : Nat) (srcSigned : Bool)
    (target source : Operand) :
    (srcSize ≥ tgtSize →
      emitCast NumberClass.integer srcSize srcSigned NumberClass.integer tgtSize target source =
        Except.ok [Instr.move target source])
    ∧ (srcSize < tgtSize → srcSigned = true →
      emitCast NumberClass.integer srcSize srcSigned NumberClass.integer tgtSize target source =
        Except.ok [Instr.moves target source])
    ∧ (srcSize < tgtSize → srcSigned = false →
      emitCast NumberClass.integer srcSize srcSigned NumberClass.integer tgtSize target source =
        Except.ok [Instr.movez target source])
    ∧ (srcSize ≥ tgtSize →
      selectCastMode NumberClass.floatingPoint srcSize srcSigned NumberClass.floatingPoint tgtSize =
        Except.ok CastMode.floatTruncate)
    ∧ (srcSize < tgtSize →
      selectCastMode NumberClass.floatingPoint srcSize srcSigned NumberClass.floatingPoint tgtSize =
        Except.ok CastMode.floatExtend)
    ∧ (emitCast NumberClass.integer srcSize srcSigned NumberClass.floatingPoint tgtSize target source =
        Except.ok [Instr.convert target source])
    ∧ (emitCast NumberClass.floatingPoint srcSize srcSigned NumberClass.integer tgtSize target source =
        Except.ok [Instr.convert target source])
    ∧ (∀ tc, emitCast NumberClass.noClass srcSize srcSigned tc tgtSize target source =
        Except.error "C073")
    ∧ (∀ sc, emitCast sc srcSize srcSigned NumberClass.noClass tgtSize target source =
        Except.error "C073") := by
  refine ⟨?_, ?_, ?_, ?_, ?_, ?_, ?_, ?_, ?_⟩
  · intro h
    rcases Nat.lt_or_ge tgtSize srcSize with hlt | hge
    · simp [emitCast, Except.map, selectCastMode, castInstrs, Nat.ne_of_gt hlt, hlt]
    · have heq : srcSize = tgtSize := Nat.le_antisymm (Nat.le_of_lt_succ (Nat.lt_succ_of_le hge)) h
      simp [emitCast, Except.map, selectCastMode, castInstrs, heq]
  · intro h hs
    simp [emitCast, Except.map, selectCastMode, castInstrs, Nat.ne_of_lt h, Nat.not_lt.mpr (Nat.le_of_lt h), hs]
  · intro h hs
    simp [emitCast, Except.map, selectCastMode, castInstrs, Nat.ne_of_lt h, Nat.not_lt.mpr (Nat.le_of_lt h), hs]
  · intro h
    rcases Nat.lt_or_ge tgtSize srcSize with hlt | hge
    · simp [selectCastMode, Nat.ne_of_gt hlt, hlt]
    · have heq : srcSize = tgtSize := Nat.le_antisymm hge h
      simp [selectCastMode, heq]
  · intro h
    simp [selectCastMode, Nat.ne_of_lt h, Nat.not_lt.mpr (Nat.le_of_lt h)]
  · simp [emitCast, Except.map, selectCastMode, castInstrs]
  · simp [emitCast, Except.map, selectCastMode, castInstrs]
  · intro tc
    simp [emitCast, Except.map, selectCastMode]
  · intro sc
    rcases sc with _ | _ | _ <;> simp [emitCast, Except.map, selectCastMode]

/-- Witness for `cast_mode_selection` at concrete sizes. -/
theorem cast_mode_selection_witness :
    ((4 : Nat) ≥ 4 ∧
      emitCast NumberClass.integer 4 false NumberClass.integer 4
        (Operand.temp "t" 4) (Operand.temp "s" 4) =
        Except.ok [Instr.move (Operand.temp "t" 4) (Operand.temp "s" 4)])
    ∧ ((1 : Nat) < 4 ∧
      emitCast NumberClass.integer 1 true NumberClass.integer 4
        (Operand.temp "t" 4) (Operand.temp "s" 1) =
        Except.ok [Instr.moves (Operand.temp "t" 4) (Operand.temp "s" 1)]) := by
  refine ⟨⟨by decide, ?_⟩, ⟨by decide, ?_⟩⟩
  · exact (cast_mode_selection 4 4 false (Operand.temp "t" 4) (Operand.temp "s" 4)).1
      (by decide)
  · exact ((cast_mode_selection 1 4 true (Operand.temp "t" 4) (Operand.temp "s" 1)).2.1
      (by decide) rfl)

/-- **C4.** For a for-over-range element with range arguments, the synthesized
comparison operator is `<` when dir=0 and kind=1, `≤` when dir=0 and kind=0,
`>` when dir=1 and kind=1, `≥` when dir=1 and kind=0; the synthesized
induction step operator is `+` when dir=0 and `-` when dir=1. -/
theorem range_operator_synthesis :
    rangeComparisonOp 0 1 = OperatorType.lessThan
    ∧ rangeComparisonOp 0 0 = OperatorType.lessThanOrEqual
    ∧ rangeComparisonOp 1 1 = OperatorType.greaterThan
    ∧ rangeComparisonOp 1 0 = OperatorType.greaterThanOrEqual
    ∧ rangeStepOp 0 = OperatorType.add
    ∧ rangeStepOp 1 = OperatorType.subtract := by
  decide

/-- **C2.** Lowering an `if` element produces four basic blocks labelled
`<id>_entry`, `<id>_true`, `<id>_false` and `<id>_exit`; the predicate block
ends with a branch-if-zero on the predicate value targeting the `<id>_false`
label, and the true block ends with an unconditional `jump_direct` to
`<id>_exit` unless its last instruction is already `jmp` or `rts`, in which
case the jump is suppressed. -/
theorem if_lowering (name : String) (predInstrs : List Instr) (predOperand : Operand)
    (trueInstrs : List Instr) (falseInstrs : Option (List Instr)) :
    ∃ entryBlock trueBlock falseBlock exitBlock,
      emitIf name predInstrs predOperand trueInstrs falseInstrs =
        [entryBlock, trueBlock, falseBlock, exitBlock]
      ∧ entryBlock.label = name ++ "_entry"
      ∧ trueBlock.label = name ++ "_true"
      ∧ falseBlock.label = name ++ "_false"
      ∧ exitBlock.label = name ++ "_exit"
      ∧ entryBlock.instrs.getLast? = some (Instr.bz predOperand (name ++ "_false"))
      ∧ (lastIsJmpOrRts trueInstrs = false →
          trueBlock.instrs.getLast? = some (Instr.jumpDirect (name ++ "_exit")))
      ∧ (lastIsJmpOrRts trueInstrs = true → trueBlock.instrs = trueInstrs) := by
  refine ⟨_, _, _, _, rfl, rfl, rfl, rfl, rfl, ?_, ?_, ?_⟩
  · simp
  · intro h
    simp [h]
  · intro h
    simp [h]

/-- Witness for `if_lowering`: a concrete `if` whose true branch does not end
in `jmp`/`rts`, so the jump to the exit label is present. -/
theorem if_lowering_witness :
    ∃ entryBlock trueBlock falseBlock exitBlock,
      emitIf "b1" [Instr.cmp Operand.sp Operand.fp] (Operand.temp "p" 1)
          [Instr.nop] none =
        [entryBlock, trueBlock, falseBlock, exitBlock]
      ∧ entryBlock.instrs.getLast? =
          some (Instr.bz (Operand.temp "p" 1) ("b1" ++ "_false"))
      ∧ trueBlock.instrs.getLast? = some (Instr.jumpDirect ("b1" ++ "_exit")) := by
  obtain ⟨e, tb, fb, xb, heq, _, _, _, _, hbz, hjmp, _⟩ :=
    if_lowering "b1" [Instr.cmp Operand.sp Operand.fp] (Operand.temp "p" 1)
      [Instr.nop] none
  exact ⟨e, tb, fb, xb, heq, hbz, hjmp (by decide)⟩

/-- Removal via `elementMapRemove` leaves a map that does not contain the removed
identifier unchanged. -/
theorem elementMapRemove_of_not_mem {m : List Nat} {id : Nat} (h : id ∉ m) :
    elementMapRemove m id = m := by
  unfold elementMapRemove
  apply List.filter_eq_self.mpr
  intro x hx
  have hne : x ≠ id := fun he => h (he ▸ hx)
  simp [hne]

/-- Removal via `elementMapRemove` drops the head when it carries the removed id. -/
theorem elementMapRemove_cons_self (m : List Nat) (id : Nat) :
    elementMapRemove (id :: m) id = elementMapRemove m id := by
  simp [elementMapRemove]

/-- **C5.** Emitting a for-over-range loop leaves the element map unchanged:
every synthetic binary operator created during lowering (induction
initialisation, comparison, and step) is marked non-owning and removed from
the element map after emission, so the element map holds exactly the same
element ids after the for loop is emitted as before. -/
theorem for_range_element_map_unchanged (m : List Nat)
    (initId cmpId stepId assignId : Nat)
    (hInit : initId ∉ m) (hCmp : cmpId ∉ m) (hStep : stepId ∉ m)
    (hAssign : assignId ∉ m)
    (hic : initId ≠ cmpId) (his : initId ≠ stepId) (hia : initId ≠ assignId)
    (hcs : cmpId ≠ stepId) (hca : cmpId ≠ assignId) (hsa : stepId ≠ assignId) :
    emitForRangeElementMapTrace m initId cmpId stepId assignId = m := by
  show elementMapRemove (elementMapRemove (elementMapRemove (elementMapRemove
    (assignId :: stepId :: cmpId :: initId :: m) assignId) stepId) cmpId) initId = m
  have r1 : elementMapRemove (assignId :: stepId :: cmpId :: initId :: m) assignId =
      stepId :: cmpId :: initId :: m := by
    rw [elementMapRemove_cons_self]
    apply elementMapRemove_of_not_mem
    simp only [List.mem_cons, not_or]
    exact ⟨hsa.symm, hca.symm, hia.symm, hAssign⟩
  have r2 : elementMapRemove (stepId :: cmpId :: initId :: m) stepId =
      cmpId :: initId :: m := by
    rw [elementMapRemove_cons_self]
    apply elementMapRemove_of_not_mem
    simp only [List.mem_cons, not_or]
    exact ⟨hcs.symm, his.symm, hStep⟩
  have r3 : elementMapRemove (cmpId :: initId :: m) cmpId = initId :: m := by
    rw [elementMapRemove_cons_self]
    apply elementMapRemove_of_not_mem
    simp only [List.mem_cons, not_or]
    exact ⟨hic.symm, hCmp⟩
  have r4 : elementMapRemove (initId :: m) initId = m := by
    rw [elementMapRemove_cons_self]
    exact elementMapRemove_of_not_mem hInit
  rw [r1, r2, r3, r4]

/-- Witness for `for_range_element_map_unchanged` at a concrete map and
concrete fresh identifiers. -/
theorem for_range_element_map_unchanged_witness :
    emitForRangeElementMapTrace [10, 20] 1 2 3 4 = [10, 20] :=
  for_range_element_map_unchanged [10, 20] 1 2 3 4
    (by decide) (by decide) (by decide) (by decide)
    (by decide) (by decide) (by decide) (by decide) (by decide) (by decide)

/-- **C9.** The claim states that each `while`/for-over-range/`switch`
construct pushes one flow-control record on entry and pops it on every exit
path, so that the stack depth is unchanged across the construct.  The code
pushes the record and registers `defer(pop_flow_control())`, but
`pop_flow_control` (`byte_code_emitter.cpp` lines 47-50) only early-returns
on an empty stack and never calls `_control_flow_stack.pop()`, so emitting a
`while` from an empty stack leaves one record behind instead of zero. -/
theorem while_flow_control_stack_not_popped :
    emitWhileFlowControlTrace []
        ⟨some "while_exit", some "while_entry"⟩ =
      [⟨some "while_exit", some "while_entry"⟩]
    ∧ (emitWhileFlowControlTrace []
        ⟨some "while_exit", some "while_entry"⟩).length ≠
      ([] : List FlowControl).length := by
  exact ⟨rfl, by decide⟩

/-- One read/write step preserves mutual exclusion of `f_read`/`f_written`. -/
theorem variableStep_flags_exclusive (s : VariableFlags) (op : VariableOp)
    (h : ¬(s.fRead = true ∧ s.fWritten = true)) :
    ¬((variableStep s op).fRead = true ∧ (variableStep s op).fWritten = true) := by
  cases op with
  | readOp b =>
    simp only [variableStep, variableRead, variableAddress]
    split_ifs <;> simp_all
  | writeOp b =>
    simp only [variableStep, variableWrite, variableAddress]
    split_ifs <;> simp_all

/-- Mutual exclusion of `f_read`/`f_written` is preserved by any sequence of
read/write operations. -/
theorem variableRun_flags_exclusive (ops : List VariableOp) (s : VariableFlags)
    (h : ¬(s.fRead = true ∧ s.fWritten = true)) :
    ¬((variableRun s ops).fRead = true ∧ (variableRun s ops).fWritten = true) := by
  induction ops generalizing s with
  | nil => exact h
  | cons op rest ih =>
    simp only [variableRun, List.foldl_cons]
    exact ih (variableStep s op) (variableStep_flags_exclusive s op h)

/-- **C10.** For every `compiler::variable`, the flags `f_read` and
`f_written` are never both set after any sequence of read and write
operations: `read()` sets `f_read` and clears `f_written`, `write()` sets
`f_written` and clears `f_read`, and each returns `false` without emitting
any instruction when its own flag is already set. -/
theorem variable_read_write_flags (ops : List VariableOp) (s : VariableFlags)
    (h : ¬(s.fRead = true ∧ s.fWritten = true)) :
    ¬((variableRun s ops).fRead = true ∧ (variableRun s ops).fWritten = true)
    ∧ (∀ b, s.fRead = true → variableRead s b = (false, s, []))
    ∧ (∀ b, s.fWritten = true → variableWrite s b = (false, s, []))
    ∧ (s.fRead = false →
        (variableRead s true).2.1.fRead = true ∧
        (variableRead s true).2.1.fWritten = false)
    ∧ (s.fWritten = false → ∀ b,
        (variableWrite s b).2.1.fWritten = true ∧
        (variableWrite s b).2.1.fRead = false) := by
  refine ⟨variableRun_flags_exclusive ops s h, ?_, ?_, ?_, ?_⟩
  · intro b hr
    simp [variableRead, hr]
  · intro b hw
    simp [variableWrite, hw]
  · intro hr
    simp [variableRead, variableAddress, hr]
  · intro hw b
    simp [variableWrite, variableAddress, hw]

/-- Witness for `variable_read_write_flags`: a freshly activated variable
(all flags clear) run through read, write, read. -/
theorem variable_read_write_flags_witness :
    ¬((variableRun ⟨false, false, false⟩
        [VariableOp.readOp true, VariableOp.writeOp true,
         VariableOp.readOp true]).fRead = true
      ∧ (variableRun ⟨false, false, false⟩
        [VariableOp.readOp true, VariableOp.writeOp true,
         VariableOp.readOp true]).fWritten = true) :=
  (variable_read_write_flags
    [VariableOp.readOp true, VariableOp.writeOp true, VariableOp.readOp true]
    ⟨false, false, false⟩ (by decide)).1

/-- **C6 counterexample.** A transmute between integer types of sizes 4 and 8
is emitted successfully — `emit_element`'s `transmute` case performs no
size-equality check — contradicting the claim that differing sizes are
rejected. -/
theorem transmute_size_mismatch_not_rejected :
    emitTransmute NumberClass.integer 4 NumberClass.integer 8
        (Operand.temp "s" 4) =
      Except.ok [Instr.move (Operand.temp "" 8) (Operand.temp "s" 4)]
    ∧ (4 : Nat) ≠ 8 :=
  ⟨rfl, by decide⟩

/-- **C6 (amended).** A transmute is rejected with error code `C073` exactly
when the source or target type lacks a number class; the sizes of the two
types are not compared, and any transmute between two non-`none`
number-class types is emitted as a `move`. -/
theorem transmute_number_class_check (srcClass tgtClass : NumberClass)
    (srcSize tgtSize : Nat) (source : Operand) :
    (srcClass ≠ NumberClass.noClass → tgtClass ≠ NumberClass.noClass →
      emitTransmute srcClass srcSize tgtClass tgtSize source =
        Except.ok [Instr.move (Operand.temp "" tgtSize) source])
    ∧ (srcClass = NumberClass.noClass ∨ tgtClass = NumberClass.noClass →
      emitTransmute srcClass srcSize tgtClass tgtSize source =
        Except.error "C073") := by
  constructor
  · intro h1 h2
    simp [emitTransmute, h1, h2]
  · rintro (h | h)
    · simp [emitTransmute, h]
    · by_cases hs : srcClass = NumberClass.noClass <;>
        simp [emitTransmute, h, hs]

/-- Witness for `transmute_number_class_check`. -/
theorem transmute_number_class_check_witness :
    emitTransmute NumberClass.integer 8 NumberClass.integer 8
        (Operand.temp "s" 8) =
      Except.ok [Instr.move (Operand.temp "" 8) (Operand.temp "s" 8)]
    ∧ emitTransmute NumberClass.noClass 8 NumberClass.integer 8
        (Operand.temp "s" 8) =
      Except.error "C073" :=
  ⟨(transmute_number_class_check NumberClass.integer NumberClass.integer 8 8
      (Operand.temp "s" 8)).1 (by decide) (by decide),
   (transmute_number_class_check NumberClass.noClass NumberClass.integer 8 8
      (Operand.temp "s" 8)).2 (Or.inl rfl)⟩

/-- **C7 counterexample.** Assigning a composite value to a scalar is
rejected with error code `X000` — a codegen-class code, not a `C0xx`
type-class code as the claim states. -/
theorem assignment_mismatch_error_code_not_C0xx :
    emitAssignment (CType.numeric NumberClass.integer 4 false)
        (CType.composite "point" 8) (Operand.temp "x" 4) none
        (Operand.temp "r" 8) =
      Except.error "X000"
    ∧ "X000".toList.head? = some 'X'
    ∧ ('X' : Char) ≠ 'C' := by
  refine ⟨rfl, rfl, by decide⟩

/-- **C7 (amended).** An assignment whose left and right sides are both
composite types emits a byte-wise `copy` of the composite's size instead of
a `store`; an assignment of a composite value to a scalar or of a scalar
value to a composite is rejected with error code `X000`. -/
theorem assignment_composite_copy (lname rname : String) (lsize rsize : Nat)
    (addr rhsOp off : Operand) :
    (emitAssignment (CType.composite lname lsize) (CType.composite rname rsize)
        addr none rhsOp =
      Except.ok [Instr.copy addr rhsOp (Operand.imm rsize 8)])
    ∧ (emitAssignment (CType.composite lname lsize) (CType.composite rname rsize)
        addr (some off) rhsOp =
      Except.ok [Instr.moveWithOffset (Operand.temp "" 8) addr off,
                 Instr.copy (Operand.temp "" 8) rhsOp (Operand.imm rsize 8)])
    ∧ (∀ cls sz sg, emitAssignment (CType.numeric cls sz sg)
        (CType.composite rname rsize) addr none rhsOp = Except.error "X000")
    ∧ (∀ cls sz sg, emitAssignment (CType.composite lname lsize)
        (CType.numeric cls sz sg) addr none rhsOp = Except.error "X000") := by
  refine ⟨rfl, rfl, ?_, ?_⟩
  · intro cls sz sg
    rfl
  · intro cls sz sg
    rfl

/-- **C8 counterexample.** A plain 64-bit numeric type — u64 (unsigned) or
s64 (signed) — is accepted by `pointer_type::on_type_check` without any
cast: the `numeric_type` arm returns `size_in_bytes() == 8`. -/
theorem pointer_accepts_plain_64bit_numeric :
    pointerOnTypeCheck (fun _ _ => false)
        (CType.numeric NumberClass.integer 1 false)
        (CType.numeric NumberClass.integer 8 false) = true
    ∧ pointerOnTypeCheck (fun _ _ => false)
        (CType.numeric NumberClass.integer 1 false)
        (CType.numeric NumberClass.integer 8 true) = true :=
  ⟨rfl, rfl⟩

/-- **C8 (amended).** A pointer type accepts another pointer when the other
pointer's base type is void, and otherwise exactly when the base types check
against each other; it also implicitly accepts any numeric type whose size
is 8 bytes (u64, s64, and f64 alike — no explicit cast is required), and
rejects every other type. -/
theorem pointer_type_check_rules (baseCheck : CType → CType → Bool)
    (pointerBase : CType) :
    (pointerOnTypeCheck baseCheck pointerBase (CType.pointer CType.voidType) = true)
    ∧ (∀ otherBase, otherBase ≠ CType.voidType →
        pointerOnTypeCheck baseCheck pointerBase (CType.pointer otherBase) =
          baseCheck pointerBase otherBase)
    ∧ (∀ cls size signed,
        pointerOnTypeCheck baseCheck pointerBase (CType.numeric cls size signed) =
          (size == 8))
    ∧ (pointerOnTypeCheck baseCheck pointerBase CType.boolType = false)
    ∧ (pointerOnTypeCheck baseCheck pointerBase CType.voidType = false)
    ∧ (∀ n s, pointerOnTypeCheck baseCheck pointerBase (CType.composite n s) = false) := by
  refine ⟨rfl, ?_, ?_, rfl, rfl, ?_⟩
  · intro otherBase hne
    simp [pointerOnTypeCheck, hne]
  · intro cls size signed
    rfl
  · intro n s
    rfl

/-- Witness for `pointer_type_check_rules`: a non-void base pointer falls
through to the base-type check. -/
theorem pointer_type_check_rules_witness :
    pointerOnTypeCheck (fun a b => a == b) CType.boolType
      (CType.pointer CType.boolType) = true := by
  rw [(pointer_type_check_rules (fun a b => a == b) CType.boolType).2.1
    CType.boolType (by decide)]
  decide

/-- **C3 counterexample.** For a foreign call, a composite argument is pushed
directly — no stack-pointer `sub` and no byte-wise `copy` are emitted, and no
stack space is recorded in `allocated_size` — contradicting the claim that
composite arguments are always byte-copied via the stack pointer. -/
theorem foreign_composite_argument_pushed :
    emitArguments true [⟨true, 16, Operand.temp "a" 8⟩] =
      ([Instr.push (Operand.temp "a" 8)], 0)
    ∧ ((emitArguments true [⟨true, 16, Operand.temp "a" 8⟩]).1.all
        (fun i =>
          match i with
          | Instr.copy _ _ _ => false
          | Instr.subi _ _ _ => false
          | _ => true)) = true :=
  ⟨rfl, rfl⟩

/-- Arguments are emitted right-to-left: the last argument of the list is
emitted first. -/
theorem emitArguments_concat (foreignCall : Bool) (args : List ArgSpec)
    (lastArg : ArgSpec) :
    emitArguments foreignCall (args ++ [lastArg]) =
      ((emitOneArg foreignCall lastArg).1 ++ (emitArguments foreignCall args).1,
       (emitOneArg foreignCall lastArg).2 + (emitArguments foreignCall args).2) := by
  simp [emitArguments, List.reverse_append, emitArgumentsReversed]

/-- For a non-foreign call, `allocated_size` accumulates the 8-byte-aligned
size of every argument. -/
theorem emitArguments_allocated (args : List ArgSpec) :
    (emitArguments false args).2 = (args.map (fun a => alignUp a.size 8)).sum := by
  have haux : ∀ l : List ArgSpec,
      (emitArgumentsReversed false l).2 = (l.map (fun a => alignUp a.size 8)).sum := by
    intro l
    induction l with
    | nil => rfl
    | cons a rest ih =>
      cases harg : a.isCompositeKind <;>
        simp [emitArgumentsReversed, emitOneArg, harg, ih]
  rw [emitArguments, haux, List.map_reverse, List.sum_reverse]

/-- **C3 (amended).** Every procedure call is lowered to three sub-blocks
labelled `<call>_prologue`, `<call>_invoke` and `<call>_epilogue`; arguments
are evaluated and pushed right-to-left.  For a non-foreign call a composite
argument is rounded up to 8 bytes and byte-copied via the stack pointer
while a scalar is pushed directly; for a foreign call every argument is
pushed directly and contributes nothing to `allocated_size`.  When the
callee returns a value and the call is not foreign, 8 is subtracted from the
stack pointer for the return slot at the end of the prologue, and the
epilogue adds the sum of the (8-byte-aligned) pushed argument sizes back to
the stack pointer. -/
theorem proc_call_lowering (callLabel procLabel : String)
    (isForeign hasReturnType : Bool) (args : List ArgSpec)
    (foreignAddress : Nat) (sig : Option Nat) :
    ((emitProcCall callLabel procLabel isForeign hasReturnType args
        foreignAddress sig).map Block.label =
      [callLabel ++ "_prologue", callLabel ++ "_invoke", callLabel ++ "_epilogue"])
    ∧ (∀ lastArg rest, emitArguments isForeign (rest ++ [lastArg]) =
        ((emitOneArg isForeign lastArg).1 ++ (emitArguments isForeign rest).1,
         (emitOneArg isForeign lastArg).2 + (emitArguments isForeign rest).2))
    ∧ (∀ a : ArgSpec, a.isCompositeKind = true →
        emitOneArg false a =
          ([Instr.subi Operand.sp Operand.sp (Operand.imm (alignUp a.size 8) 2),
            Instr.copy Operand.sp a.operand (Operand.imm (alignUp a.size 8) 2)],
           alignUp a.size 8))
    ∧ (∀ a : ArgSpec, a.isCompositeKind = false →
        emitOneArg false a = ([Instr.push a.operand], alignUp a.size 8))
    ∧ (∀ a : ArgSpec, emitOneArg true a = ([Instr.push a.operand], 0))
    ∧ (emitProcCall callLabel procLabel false true args foreignAddress sig =
        [⟨callLabel ++ "_prologue",
          Instr.pushLocals :: (emitArguments false args).1 ++
            [Instr.subi Operand.sp Operand.sp (Operand.imm 8 1)]⟩,
         ⟨callLabel ++ "_invoke", [Instr.call procLabel]⟩,
         ⟨callLabel ++ "_epilogue",
          (if (emitArguments false args).2 > 0 then
            [Instr.addi Operand.sp Operand.sp
              (Operand.imm (emitArguments false args).2 2)]
           else []) ++ [Instr.popLocals]⟩])
    ∧ ((emitArguments false args).2 = (args.map (fun a => alignUp a.size 8)).sum) := by
  refine ⟨?_, ?_, ?_, ?_, ?_, ?_, emitArguments_allocated args⟩
  · cases isForeign <;> simp [emitProcCall]
  · intro lastArg rest
    exact emitArguments_concat isForeign rest lastArg
  · intro a ha
    simp [emitOneArg, ha]
  · intro a ha
    simp [emitOneArg, ha]
  · intro a
    simp [emitOneArg]
  · simp [emitProcCall]

/-- Witness for `proc_call_lowering` at concrete arguments. -/
theorem proc_call_lowering_witness :
    emitOneArg false ⟨true, 12, Operand.temp "a" 8⟩ =
      ([Instr.subi Operand.sp Operand.sp (Operand.imm (alignUp 12 8) 2),
        Instr.copy Operand.sp (Operand.temp "a" 8) (Operand.imm (alignUp 12 8) 2)],
       alignUp 12 8)
    ∧ emitOneArg false ⟨false, 4, Operand.temp "b" 4⟩ =
      ([Instr.push (Operand.temp "b" 4)], alignUp 4 8) :=
  ⟨(proc_call_lowering "c1" "p" false true [] 0 none).2.2.1
      ⟨true, 12, Operand.temp "a" 8⟩ rfl,
   (proc_call_lowering "c1" "p" false true [] 0 none).2.2.2.1
      ⟨false, 4, Operand.temp "b" 4⟩ rfl⟩

end Basecode
